import Mathlib

/-!
Shallow embedding of the GPU volume ray-caster in
`src/virvo/virvo/vvrayrend.cu` (deskvox).

Modelling conventions:
* CUDA `float` arithmetic is modelled by exact rational arithmetic (`ℚ`).
  Float constants carry over by their decimal value; `1/0 = 0` in `ℚ`
  replaces IEEE infinities.
* Library functions whose value the source does not define (`__fsqrt_rn`,
  `powf`) are oracle parameters collected in `FloatOps`.
* Device textures are modelled as functions (their contents are kernel
  inputs): the bound volume texture is `Vec3 → ℚ`, the transfer-function
  texture is `ℚ → Vec4`, the jitter texture is `ℕ → Vec4`.
* C truncating conversions (`float → int`, `float → unsigned char`) are
  modelled by `truncQ` resp. `Int.floor ∘ toNat` on non-negative values.
-/

namespace VV

/-- The `float3` of the CUDA source, over exact rationals. -/
structure Vec3 where
  x : ℚ
  y : ℚ
  z : ℚ
deriving DecidableEq

/-- The `float4` of the CUDA source, over exact rationals. -/
structure Vec4 where
  x : ℚ
  y : ℚ
  z : ℚ
  w : ℚ
deriving DecidableEq

instance : Add Vec3 := ⟨fun a b => ⟨a.x + b.x, a.y + b.y, a.z + b.z⟩⟩

instance : Sub Vec3 := ⟨fun a b => ⟨a.x - b.x, a.y - b.y, a.z - b.z⟩⟩

instance : Neg Vec3 := ⟨fun a => ⟨-a.x, -a.y, -a.z⟩⟩

/-- Componentwise `float3 * float3` (as in `vvcudautils`). -/
instance : Mul Vec3 := ⟨fun a b => ⟨a.x * b.x, a.y * b.y, a.z * b.z⟩⟩

/-- Componentwise `float3 / float3` (used by `intersectBox` for `1/ray.d`). -/
instance : Div Vec3 := ⟨fun a b => ⟨a.x / b.x, a.y / b.y, a.z / b.z⟩⟩

/-- The `float3 * scalar`. -/
instance : HMul Vec3 ℚ Vec3 := ⟨fun v s => ⟨v.x * s, v.y * s, v.z * s⟩⟩

/-- The `scalar * float3`. -/
instance : HMul ℚ Vec3 Vec3 := ⟨fun s v => ⟨s * v.x, s * v.y, s * v.z⟩⟩

instance : Add Vec4 := ⟨fun a b => ⟨a.x + b.x, a.y + b.y, a.z + b.z, a.w + b.w⟩⟩

instance : Sub Vec4 := ⟨fun a b => ⟨a.x - b.x, a.y - b.y, a.z - b.z, a.w - b.w⟩⟩

/-- The `float4 * scalar`. -/
instance : HMul Vec4 ℚ Vec4 := ⟨fun v s => ⟨v.x * s, v.y * s, v.z * s, v.w * s⟩⟩

/-- The `dot` on `float3`. -/
def dot3 (a b : Vec3) : ℚ := a.x * b.x + a.y * b.y + a.z * b.z

/-- The `dot` on rows of a 4x4 matrix. -/
def dot4 (a b : Vec4) : ℚ := a.x * b.x + a.y * b.y + a.z * b.z + a.w * b.w

/-- The `make_float3(float4)`: drop the `w` component. -/
def toVec3 (v : Vec4) : Vec3 := ⟨v.x, v.y, v.z⟩

/-- Oracles for the float library calls the source leaves to the GPU:
`__fsqrt_rn` (also hidden inside `normalize`) and `powf`. -/
structure FloatOps where
  sqrt : ℚ → ℚ
  powf : ℚ → ℚ → ℚ

/-- CUDA `normalize`: divide by the (oracle) square root of the squared
length. -/
def normalize3 (ops : FloatOps) (v : Vec3) : Vec3 :=
  let len := ops.sqrt (dot3 v v)
  ⟨v.x / len, v.y / len, v.z / len⟩

/-- C truncating conversion `float → int` (round toward zero). -/
def truncQ (a : ℚ) : ℤ := if 0 ≤ a then Int.floor a else Int.ceil a

/-- The `fmodf a b = a - trunc(a/b) * b` (for `b ≠ 0`). -/
def fmodQ (a b : ℚ) : ℚ := a - b * ((truncQ (a / b) : ℤ) : ℚ)

/-- The `matrix4x4` with rows `m[0]..m[3]`. -/
structure Matrix4 where
  r0 : Vec4
  r1 : Vec4
  r2 : Vec4
  r3 : Vec4
deriving DecidableEq

/-- The `mulPost`: matrix times column vector. -/
def mulPost (M : Matrix4) (v : Vec4) : Vec4 :=
  ⟨dot4 M.r0 v, dot4 M.r1 v, dot4 M.r2 v, dot4 M.r3 v⟩

/-- The `perspectiveDivide`. -/
def perspectiveDivide (v : Vec4) : Vec3 :=
  let wInv := 1 / v.w
  ⟨v.x * wInv, v.y * wInv, v.z * wInv⟩

/-- The `struct Ray`. -/
structure Ray where
  o : Vec3
  d : Vec3
deriving DecidableEq

/-- Result of `intersectBox` (`hit` is the returned `bool`, `tnear`/`tfar`
the out-parameters). -/
structure BoxHit where
  hit : Bool
  tnear : ℚ
  tfar : ℚ
deriving DecidableEq

/-- The `intersectBox`: slab test against an axis-aligned box. -/
def intersectBox (ray : Ray) (boxmin boxmax : Vec3) : BoxHit :=
  let invR := (⟨1, 1, 1⟩ : Vec3) / ray.d
  let t1x := (boxmin.x - ray.o.x) * invR.x
  let t2x := (boxmax.x - ray.o.x) * invR.x
  let tminx := min t1x t2x
  let tmaxx := max t1x t2x
  let t1y := (boxmin.y - ray.o.y) * invR.y
  let t2y := (boxmax.y - ray.o.y) * invR.y
  let tminy := max (min t1y t2y) tminx
  let tmaxy := min (max t1y t2y) tmaxx
  let t1z := (boxmin.z - ray.o.z) * invR.z
  let t2z := (boxmax.z - ray.o.z) * invR.z
  let tmin := max (min t1z t2z) tminy
  let tmax := min (max t1z t2z) tmaxy
  ⟨decide (tmin ≤ tmax) && decide (0 ≤ tmax), tmin, tmax⟩

/-- The `solveQuadraticEquation`; returns (swapped?, tnear, tfar).  The source
falls through after the `discrim < 0` branch, so the `-1` assignments are
dead and the result is computed from `sqrt discrim` unconditionally. -/
def solveQuadraticEquation (ops : FloatOps) (A B C : ℚ) : Bool × ℚ × ℚ :=
  let discrim := B * B - 4 * A * C
  let rootDiscrim := ops.sqrt discrim
  let q := if B < 0 then -(1/2) * (B - rootDiscrim) else -(1/2) * (B + rootDiscrim)
  let tn := q / A
  let tf := C / q
  if tf < tn then (true, tf, tn) else (false, tn, tf)

/-- The `intersectSphere`. -/
def intersectSphere (ops : FloatOps) (ray : Ray) (center : Vec3) (radiusSqr : ℚ) :
    Bool × ℚ × ℚ :=
  let o := ray.o - center
  let A := dot3 ray.d ray.d
  let B := 2 * dot3 ray.d o
  let C := dot3 o o - radiusSqr
  solveQuadraticEquation ops A B C

/-- The `intersectPlane`; returns (nddot, tnear). -/
def intersectPlane (ray : Ray) (normal : Vec3) (dist : ℚ) : ℚ × ℚ :=
  let nddot := dot3 normal ray.d
  let vOrigin := dist - dot3 normal ray.o
  (nddot, vOrigin / nddot)

/-- The `calcTexCoord`. -/
def calcTexCoord (pos volPos volSizeHalf : Vec3) : Vec3 :=
  ⟨(pos.x - volPos.x + volSizeHalf.x) / (volSizeHalf.x * 2),
   (pos.y - volPos.y + volSizeHalf.y) / (volSizeHalf.y * 2),
   (pos.z - volPos.z + volSizeHalf.z) / (volSizeHalf.z * 2)⟩

/-- The `skipSpace`: the source returns a hard-coded `false` (the texture read
is commented out). -/
def skipSpace (_pos : Vec3) : Bool := false

/-- The `uchar4` as written by the kernel. -/
structure UChar4 where
  x : ℕ
  y : ℕ
  z : ℕ
  w : ℕ
deriving DecidableEq

/-- The `clamp` to `[0,1]` as used by `rgbaFloatToInt`. -/
def clampQ (a : ℚ) : ℚ := max 0 (min 1 a)

/-- One channel of `rgbaFloatToInt`: clamp to `[0,1]`, scale by 255,
truncate to a byte. -/
def byteOf (a : ℚ) : ℕ := (Int.floor (clampQ a * 255)).toNat

/-- The `rgbaFloatToInt`. -/
def rgbaFloatToInt (rgba : Vec4) : UChar4 :=
  ⟨byteOf rgba.x, byteOf rgba.y, byteOf rgba.z, byteOf rgba.w⟩

/-- The `gradient`: central differences with delta `0.01` on the volume
texture. -/
def gradient (vol : Vec3 → ℚ) (pos : Vec3) : Vec3 :=
  let DELTA : ℚ := 1/100
  ⟨vol (pos + ⟨DELTA, 0, 0⟩) - vol (pos - ⟨DELTA, 0, 0⟩),
   vol (pos + ⟨0, DELTA, 0⟩) - vol (pos - ⟨0, DELTA, 0⟩),
   vol (pos + ⟨0, 0, DELTA⟩) - vol (pos - ⟨0, 0, DELTA⟩)⟩

/-- The `blinnPhong`; the optional `clipNormal` models the `normal` pointer
argument. -/
def blinnPhong (ops : FloatOps) (vol : Vec3 → ℚ) (classification : Vec4)
    (pos L H Ka Kd Ks : Vec3) (shininess : ℚ) (clipNormal : Option Vec3) : Vec4 :=
  let N0 := normalize3 ops (gradient vol pos)
  let N := match clipNormal with
    | some nrm => normalize3 ops (nrm * classification.w + N0 * (1 - classification.w))
    | none => N0
  let diffuse := |dot3 L N|
  let specular := ops.powf (dot3 H N) shininess
  let c := toVec3 classification
  let tmp0 := Ka * c + (Kd * diffuse) * c
  let tmp := if 0 < specular then tmp0 + (Ks * specular) * c else tmp0
  ⟨tmp.x, tmp.y, tmp.z, classification.w⟩

theorem blinnPhong_w (ops : FloatOps) (vol : Vec3 → ℚ) (classification : Vec4)
    (pos L H Ka Kd Ks : Vec3) (shininess : ℚ) (clipNormal : Option Vec3) :
    (blinnPhong ops vol classification pos L H Ka Kd Ks shininess clipNormal).w
      = classification.w := by
  unfold blinnPhong
  cases clipNormal <;> simp

/-- The `NUM_RAND_VECS`. -/
def NUM_RAND_VECS : ℕ := 8192

/-- The `maxSteps = INT_MAX` in the kernel. -/
def maxSteps : ℕ := 2147483647

/-- The `vvImage2_5d::DepthPrecision`. -/
inductive DepthPrecision where
  | vvUchar
  | vvUshort
  | vvUint
deriving DecidableEq

/-- The template parameters of the `render` kernel, in source order. -/
structure RenderFlags where
  earlyRayTermination : Bool
  spaceSkipping : Bool
  frontToBack : Bool
  bpc : ℕ
  mipMode : ℕ
  lighting : Bool
  opacityCorrection : Bool
  jittering : Bool
  clipPlane : Bool
  clipSphere : Bool
  useSphereAsProbe : Bool
deriving DecidableEq

/-- Everything the stepping loop of `render` reads but never writes. -/
structure LoopEnv where
  cfg : RenderFlags
  ops : FloatOps
  vol : Vec3 → ℚ
  tf : ℚ → Vec4
  dist : ℚ
  tfar : ℚ
  tpnear : ℚ
  nddot : ℚ
  tsnear : ℚ
  tsfar : ℚ
  volPos : Vec3
  volSizeHalf : Vec3
  step : Vec3
  sphereCenter : Vec3
  planeNormal : Vec3
  L : Vec3
  H : Vec3

/-- The mutable state of the stepping loop of `render`.  `samples` counts
the non-clipped, non-skipped samples actually classified (instrumentation;
it does not influence any other field). -/
structure LoopState where
  dst : Vec4
  t : ℚ
  pos : Vec3
  justClippedPlane : Bool
  justClippedSphere : Bool
  maxDiff : ℚ
  maxDiffDepth : Vec3
  lastAlpha : ℚ
  samples : ℕ
deriving DecidableEq

/-- Local illumination of the classified sample (lines 462-486): when
lighting is on and `src.w > 0.1`, Blinn-Phong with the fixed material
constants, choosing the clip-surface normal if the previous iteration was
clipped. -/
def applyLighting (e : LoopEnv) (s : LoopState) (texCoord : Vec3) (src : Vec4) : Vec4 :=
  if e.cfg.lighting && decide ((1:ℚ)/10 < src.w) then
    if s.justClippedPlane then
      blinnPhong e.ops e.vol src texCoord e.L e.H ⟨0, 0, 0⟩ ⟨4/5, 4/5, 4/5⟩ ⟨4/5, 4/5, 4/5⟩
        1000 (some e.planeNormal)
    else if s.justClippedSphere then
      blinnPhong e.ops e.vol src texCoord e.L e.H ⟨0, 0, 0⟩ ⟨4/5, 4/5, 4/5⟩ ⟨4/5, 4/5, 4/5⟩
        1000 (some (normalize3 e.ops (s.pos - e.sphereCenter)))
    else
      blinnPhong e.ops e.vol src texCoord e.L e.H ⟨0, 0, 0⟩ ⟨4/5, 4/5, 4/5⟩ ⟨4/5, 4/5, 4/5⟩
        1000 none
  else src

/-- Opacity correction (lines 488-491): `src.w ← 1 - (1 - src.w)^dist`. -/
def applyOpacityCorrection (e : LoopEnv) (src : Vec4) : Vec4 :=
  if e.cfg.opacityCorrection then
    ⟨src.x, src.y, src.z, 1 - e.ops.powf (1 - src.w) e.dist⟩
  else src

/-- Alpha premultiplication in NONE compositing mode (lines 493-499). -/
def premultiply (mipMode : ℕ) (src : Vec4) : Vec4 :=
  if mipMode = 0 then ⟨src.x * src.w, src.y * src.w, src.z * src.w, src.w⟩
  else src

/-- Lighting, opacity correction and alpha premultiplication applied to the
classified sample `src0` (lines 462-499 of `vvrayrend.cu`). -/
def shadeAndCorrect (e : LoopEnv) (s : LoopState) (texCoord : Vec3) (src0 : Vec4) : Vec4 :=
  premultiply e.cfg.mipMode (applyOpacityCorrection e (applyLighting e s texCoord src0))

/-- The `t += dist; if (t > tfar) break; pos += step; continue;` — the advance
used by the clipped and space-skipped paths (which bypass the depth
bookkeeping via `continue`). -/
def advanceStep (e : LoopEnv) (s : LoopState) : LoopState ⊕ LoopState :=
  let s1 := { s with t := s.t + e.dist }
  if e.tfar < s1.t then .inl s1 else .inr { s1 with pos := s1.pos + e.step }

/-- The depth bookkeeping at the end of a sampled iteration
(lines 523-531): runs after `pos += step`. -/
def depthBookkeeping (s : LoopState) : LoopState :=
  if s.maxDiff < s.dst.w - s.lastAlpha then
    { s with maxDiff := s.dst.w - s.lastAlpha,
             maxDiffDepth := s.pos,
             lastAlpha := s.dst.w }
  else { s with lastAlpha := s.dst.w }

/-- The MIP update of `dst` (lines 447-460). -/
def mipUpdate (mipMode : ℕ) (src0 dst : Vec4) : Vec4 :=
  if mipMode = 1 then ⟨max src0.x dst.x, max src0.y dst.y, max src0.z dst.z, 1⟩
  else if mipMode = 2 then ⟨min src0.x dst.x, min src0.y dst.y, min src0.z dst.z, 1⟩
  else dst

/-- The value of `dst` after the MIP update and the front-to-back
composite of a sampled iteration (lines 447-508). -/
def compositeDst (e : LoopEnv) (s : LoopState) : Vec4 :=
  let texCoord := calcTexCoord s.pos e.volPos e.volSizeHalf
  let src0 := e.tf (e.vol texCoord)
  let dst1 := mipUpdate e.cfg.mipMode src0 s.dst
  if e.cfg.frontToBack && decide (e.cfg.mipMode = 0) then
    dst1 + shadeAndCorrect e s texCoord src0 * (1 - dst1.w)
  else dst1

/-- A sampled (non-clipped, non-skipped) loop iteration: classify, MIP,
shade, composite, early-terminate or advance. -/
def sampleStep (e : LoopEnv) (s : LoopState) : LoopState ⊕ LoopState :=
  let s1 := { s with dst := compositeDst e s,
                     justClippedPlane := false,
                     justClippedSphere := false,
                     samples := s.samples + 1 }
  if e.cfg.earlyRayTermination && decide ((19:ℚ)/20 < s1.dst.w) then .inl s1
  else
    let s2 := { s1 with t := s1.t + e.dist }
    if e.tfar < s2.t then .inl s2
    else .inr (depthBookkeeping { s2 with pos := s2.pos + e.step })

/-- One iteration of the stepping loop.  `.inl s` models `break` (or the
`t > tfar` exit) with final state `s`; `.inr s` models falling through to
the next iteration with state `s`. -/
def loopIter (e : LoopEnv) (s : LoopState) : LoopState ⊕ LoopState :=
  let clippedPlane := e.cfg.clipPlane &&
    ((decide (s.t ≤ e.tpnear) && decide (0 ≤ e.nddot)) ||
     (decide (e.tpnear ≤ s.t) && decide (e.nddot < 0)))
  let clippedSphere :=
    if e.cfg.useSphereAsProbe then
      e.cfg.clipSphere && (decide (s.t < e.tsnear) || decide (e.tsfar < s.t))
    else
      e.cfg.clipSphere && decide (e.tsnear ≤ s.t) && decide (s.t ≤ e.tsfar)
  if clippedPlane || clippedSphere then
    advanceStep e { s with justClippedPlane := clippedPlane,
                           justClippedSphere := clippedSphere }
  else if e.cfg.spaceSkipping && skipSpace (calcTexCoord s.pos e.volPos e.volSizeHalf) then
    advanceStep e s
  else
    sampleStep e s

/-- The stepping loop (`for (int i=0; i<maxSteps; ++i)`), fuel-bounded by
the iteration counter. -/
def renderLoop (e : LoopEnv) : ℕ → LoopState → LoopState
  | 0, s => s
  | n + 1, s =>
    match loopIter e s with
    | .inl s1 => s1
    | .inr s1 => renderLoop e n s1

/-- Depth emission (lines 533-560): project `maxDiffDepth`, map window `z`
from `[-1,1]` to `[0,1]`, clamp, quantize to the configured precision. -/
def depthValue (M : Matrix4) (p : Vec3) (dp : DepthPrecision) : ℕ :=
  let depthWin := mulPost M ⟨p.x, p.y, p.z, 1⟩
  let depth := perspectiveDivide depthWin
  let z1 := (depth.z + 1) / 2
  let z := if 1 < z1 then 1 else if z1 < 0 then 0 else z1
  match dp with
  | .vvUchar => (Int.floor (z * 255)).toNat
  | .vvUshort => (Int.floor (z * 65535)).toNat
  | .vvUint => (Int.floor (z * 4294967295)).toNat

/-- The per-launch inputs of the `render` kernel (arguments, device
constants and bound textures). -/
structure RenderEnv where
  cfg : RenderFlags
  ops : FloatOps
  vol : Vec3 → ℚ
  tf : ℚ → Vec4
  rand : ℕ → Vec4
  invViewMatrix : Matrix4
  mvPrMatrix : Matrix4
  width : ℕ
  height : ℕ
  texwidth : ℕ
  backgroundColor : Vec4
  dist : ℚ
  volPos : Vec3
  volSizeHalf : Vec3
  probePos : Vec3
  probeSizeHalf : Vec3
  L : Vec3
  H : Vec3
  sphereCenter : Vec3
  sphereRadius : ℚ
  planeNormal : Vec3
  planeDist : ℚ
  dp : DepthPrecision

/-- What one kernel thread writes for its pixel: the RGBA store to
`d_output` and the store to `d_depth`, each as (linear index, value), plus
the instrumented sample count and the final `dst` color. -/
structure PixelOutput where
  color : Option (ℕ × UChar4)
  depth : Option (ℕ × ℕ)
  samples : ℕ
  dstFinal : Vec4
deriving DecidableEq

/-- Ray generation of `render` (lines 300-316). -/
def pixelRay (e : RenderEnv) (x y : ℕ) : Ray :=
  let u : ℚ := ((x : ℚ) / (e.width : ℚ)) * 2 - 1
  let v : ℚ := ((y : ℚ) / (e.height : ℚ)) * 2 - 1
  let o := mulPost e.invViewMatrix ⟨u, v, -1, 1⟩
  let d := mulPost e.invViewMatrix ⟨u, v, 1, 1⟩
  let rayO := perspectiveDivide o
  ⟨rayO, normalize3 e.ops (perspectiveDivide d - rayO)⟩

/-- The probe-box slab test performed by `render` (line 320). -/
def probeHit (e : RenderEnv) (x y : ℕ) : BoxHit :=
  intersectBox (pixelRay e x y) (e.probePos - e.probeSizeHalf) (e.probePos + e.probeSizeHalf)

/-- The part of the `render` kernel body after a successful probe-box
test (lines 342-561), given the generated ray and the box-hit record. -/
def renderPixelHit (e : RenderEnv) (x y : ℕ) (ray : Ray) (bh : BoxHit) : PixelOutput :=
  let tnear0 := bh.tnear
  let tnear1 :=
    if fmodQ tnear0 e.dist = 0 then tnear0
    else e.dist * ((truncQ (tnear0 / e.dist) : ℤ) : ℚ)
  let tnear := if tnear1 < 0 then 0 else tnear1
  let sph := intersectSphere e.ops ray e.sphereCenter e.sphereRadius
  if e.cfg.clipSphere = true ∧ sph.1 = false ∧ e.cfg.useSphereAsProbe = true then
    ⟨some (y * e.texwidth + x, ⟨0, 0, 0, 0⟩), none, 0, ⟨0, 0, 0, 0⟩⟩
  else
    let pl := intersectPlane ray e.planeNormal e.planeDist
    let dst0 : Vec4 := if 0 < e.cfg.mipMode then e.backgroundColor else ⟨0, 0, 0, 0⟩
    let pos0 := ray.o + ray.d * tnear
    let pos1 :=
      if e.cfg.jittering then
        pos0 + toVec3 (e.rand ((y * e.width + x) % NUM_RAND_VECS))
      else pos0
    let le : LoopEnv :=
      { cfg := e.cfg, ops := e.ops, vol := e.vol, tf := e.tf, dist := e.dist,
        tfar := bh.tfar, tpnear := pl.2, nddot := pl.1,
        tsnear := sph.2.1, tsfar := sph.2.2,
        volPos := e.volPos, volSizeHalf := e.volSizeHalf,
        step := ray.d * e.dist, sphereCenter := e.sphereCenter,
        planeNormal := e.planeNormal, L := e.L, H := e.H }
    let sF := renderLoop le maxSteps
      ⟨dst0, tnear, pos1, false, false, 0, ⟨0, 0, 0⟩, 0, 0⟩
    ⟨some (y * e.texwidth + x, rgbaFloatToInt sF.dst),
     some (y * e.texwidth + x, depthValue e.mvPrMatrix sF.maxDiffDepth e.dp),
     sF.samples, sF.dst⟩

/-- One thread of the `render` kernel (the body from line 287 on), as a
pure function of the launch inputs and the pixel coordinate. -/
def renderPixel (e : RenderEnv) (x y : ℕ) : PixelOutput :=
  if e.width ≤ x ∨ e.height ≤ y then ⟨none, none, 0, ⟨0, 0, 0, 0⟩⟩
  else if (probeHit e x y).hit = false then
    ⟨some (y * e.texwidth + x, ⟨0, 0, 0, 0⟩), some (y * e.texwidth + x, 0), 0, ⟨0, 0, 0, 0⟩⟩
  else
    renderPixelHit e x y (pixelRay e x y) (probeHit e x y)

@[simp] theorem Vec4.add_w (a b : Vec4) : (a + b).w = a.w + b.w := rfl

@[simp] theorem Vec4.hmul_w (a : Vec4) (s : ℚ) : (a * s).w = a.w * s := rfl

/-! ## Kernel dispatcher (`getKernel*` factory cascade)

The templated factories return pointers to `render` specializations; here
a specialization is identified with its `RenderFlags` template-argument
tuple. -/

/-- The `getKernelWithMip`: builds the final template-argument tuple of
`render` (space skipping hard-wired `true`, front-to-back `true`,
jittering `false`). -/
def getKernelWithMip (bpc : ℕ)
    (illumination opacityCorrection earlyRayTermination : Bool)
    (clipPlane clipSphere useSphereAsProbe : Bool) (mipMode : ℕ) : RenderFlags :=
  { earlyRayTermination := earlyRayTermination
    spaceSkipping := true
    frontToBack := true
    bpc := bpc
    mipMode := mipMode
    lighting := illumination
    opacityCorrection := opacityCorrection
    jittering := false
    clipPlane := clipPlane
    clipSphere := clipSphere
    useSphereAsProbe := useSphereAsProbe }

/-- Renderer state read by the dispatcher cascade (`getParameter` values
and getters of `vvRayRend`). -/
structure RendererState where
  bpc : ℕ
  illumination : Bool
  opacityCorrection : Bool
  earlyRayTermination : Bool
  clipMode : Bool
  isROIUsed : Bool
  sphericalROI : Bool
  mipMode : ℤ

/-- The `getKernelWithSphereAsProbe`: the `switch` on `VV_MIP_MODE`.  MIP
modes 1 and 2 force early-ray termination off. -/
def getKernelWithSphereAsProbe (bpc : ℕ)
    (illumination opacityCorrection earlyRayTermination : Bool)
    (clipPlane clipSphere useSphereAsProbe : Bool) (mip : ℤ) : RenderFlags :=
  if mip = 0 then
    getKernelWithMip bpc illumination opacityCorrection earlyRayTermination
      clipPlane clipSphere useSphereAsProbe 0
  else if mip = 1 then
    getKernelWithMip bpc illumination opacityCorrection false
      clipPlane clipSphere useSphereAsProbe 1
  else if mip = 2 then
    getKernelWithMip bpc illumination opacityCorrection false
      clipPlane clipSphere useSphereAsProbe 2
  else
    getKernelWithMip bpc illumination opacityCorrection earlyRayTermination
      clipPlane clipSphere useSphereAsProbe 0

/-- The `getKernelWithClipPlane`: branches on `VV_IS_ROI_USED ∧ VV_SPHERICAL_ROI`. -/
def getKernelWithClipPlane (bpc : ℕ)
    (illumination opacityCorrection earlyRayTermination clipPlane : Bool)
    (rs : RendererState) : RenderFlags :=
  if rs.isROIUsed && rs.sphericalROI then
    getKernelWithSphereAsProbe bpc illumination opacityCorrection earlyRayTermination
      clipPlane true true rs.mipMode
  else
    getKernelWithSphereAsProbe bpc illumination opacityCorrection earlyRayTermination
      clipPlane false false rs.mipMode

/-- The `getKernelWithEarlyRayTermination`: branches on `VV_CLIP_MODE`. -/
def getKernelWithEarlyRayTermination (bpc : ℕ)
    (illumination opacityCorrection earlyRayTermination : Bool)
    (rs : RendererState) : RenderFlags :=
  if rs.clipMode then
    getKernelWithClipPlane bpc illumination opacityCorrection earlyRayTermination true rs
  else
    getKernelWithClipPlane bpc illumination opacityCorrection earlyRayTermination false rs

/-- The `getKernelWithOpacityCorrection`: branches on `getEarlyRayTermination()`. -/
def getKernelWithOpacityCorrection (bpc : ℕ)
    (illumination opacityCorrection : Bool) (rs : RendererState) : RenderFlags :=
  if rs.earlyRayTermination then
    getKernelWithEarlyRayTermination bpc illumination opacityCorrection true rs
  else
    getKernelWithEarlyRayTermination bpc illumination opacityCorrection false rs

/-- The `getKernelWithIllumination`: branches on `getOpacityCorrection()`. -/
def getKernelWithIllumination (bpc : ℕ) (illumination : Bool)
    (rs : RendererState) : RenderFlags :=
  if rs.opacityCorrection then
    getKernelWithOpacityCorrection bpc illumination true rs
  else
    getKernelWithOpacityCorrection bpc illumination false rs

/-- The `getKernelWithBpc`: branches on `getIllumination()`. -/
def getKernelWithBpc (bpc : ℕ) (rs : RendererState) : RenderFlags :=
  if rs.illumination then
    getKernelWithIllumination bpc true rs
  else
    getKernelWithIllumination bpc false rs

/-- The `getKernel`: branches on `vd->bpc`. -/
def getKernel (rs : RendererState) : RenderFlags :=
  if rs.bpc = 1 then getKernelWithBpc 1 rs
  else if rs.bpc = 2 then getKernelWithBpc 2 rs
  else getKernelWithBpc 1 rs

theorem getKernelWithSphereAsProbe_ert_mip (bpc : ℕ)
    (illumination opacityCorrection earlyRayTermination : Bool)
    (clipPlane clipSphere useSphereAsProbe : Bool) (mip : ℤ) :
    ((getKernelWithSphereAsProbe bpc illumination opacityCorrection earlyRayTermination
        clipPlane clipSphere useSphereAsProbe mip).earlyRayTermination
      = if mip = 1 ∨ mip = 2 then false else earlyRayTermination) ∧
    ((getKernelWithSphereAsProbe bpc illumination opacityCorrection earlyRayTermination
        clipPlane clipSphere useSphereAsProbe mip).mipMode
      = if mip = 1 then 1 else if mip = 2 then 2 else 0) := by
  unfold getKernelWithSphereAsProbe getKernelWithMip
  split_ifs <;> simp_all

theorem getKernelWithClipPlane_collapse (bpc : ℕ)
    (illumination opacityCorrection earlyRayTermination clipPlane : Bool)
    (rs : RendererState) :
    getKernelWithClipPlane bpc illumination opacityCorrection earlyRayTermination
        clipPlane rs =
      getKernelWithSphereAsProbe bpc illumination opacityCorrection earlyRayTermination
        clipPlane (rs.isROIUsed && rs.sphericalROI) (rs.isROIUsed && rs.sphericalROI)
        rs.mipMode := by
  unfold getKernelWithClipPlane
  cases h : rs.isROIUsed && rs.sphericalROI <;> simp [h]

theorem getKernelWithEarlyRayTermination_collapse (bpc : ℕ)
    (illumination opacityCorrection earlyRayTermination : Bool) (rs : RendererState) :
    getKernelWithEarlyRayTermination bpc illumination opacityCorrection
        earlyRayTermination rs =
      getKernelWithClipPlane bpc illumination opacityCorrection earlyRayTermination
        rs.clipMode rs := by
  unfold getKernelWithEarlyRayTermination
  cases h : rs.clipMode <;> simp [h]

theorem getKernelWithOpacityCorrection_collapse (bpc : ℕ)
    (illumination opacityCorrection : Bool) (rs : RendererState) :
    getKernelWithOpacityCorrection bpc illumination opacityCorrection rs =
      getKernelWithEarlyRayTermination bpc illumination opacityCorrection
        rs.earlyRayTermination rs := by
  unfold getKernelWithOpacityCorrection
  cases h : rs.earlyRayTermination <;> simp [h]

theorem getKernelWithIllumination_collapse (bpc : ℕ) (illumination : Bool)
    (rs : RendererState) :
    getKernelWithIllumination bpc illumination rs =
      getKernelWithOpacityCorrection bpc illumination rs.opacityCorrection rs := by
  unfold getKernelWithIllumination
  cases h : rs.opacityCorrection <;> simp [h]

theorem getKernelWithBpc_collapse (bpc : ℕ) (rs : RendererState) :
    getKernelWithBpc bpc rs =
      getKernelWithIllumination bpc rs.illumination rs := by
  unfold getKernelWithBpc
  cases h : rs.illumination <;> simp [h]

theorem getKernel_collapse (rs : RendererState) :
    getKernel rs =
      getKernelWithSphereAsProbe (if rs.bpc = 1 then 1 else if rs.bpc = 2 then 2 else 1)
        rs.illumination rs.opacityCorrection rs.earlyRayTermination rs.clipMode
        (rs.isROIUsed && rs.sphericalROI) (rs.isROIUsed && rs.sphericalROI)
        rs.mipMode := by
  unfold getKernel
  split_ifs with h1 h2 <;>
    rw [getKernelWithBpc_collapse, getKernelWithIllumination_collapse,
      getKernelWithOpacityCorrection_collapse, getKernelWithEarlyRayTermination_collapse,
      getKernelWithClipPlane_collapse]

/-- Claim C3: for every renderer configuration, the dispatcher cascade
selects a `render` specialization whose early-ray-termination template
argument is `false` whenever the MIP-mode parameter is 1 (MAX) or 2 (MIN),
and passes the renderer's early-ray-termination setting through unchanged
when the MIP-mode parameter is 0 or any unrecognized value.  The selected
MIP template argument is 1 for MAX, 2 for MIN, and 0 otherwise. -/
theorem dispatcher_disables_ert_for_mip (rs : RendererState) :
    ((getKernel rs).earlyRayTermination
      = if rs.mipMode = 1 ∨ rs.mipMode = 2 then false else rs.earlyRayTermination) ∧
    ((getKernel rs).mipMode
      = if rs.mipMode = 1 then 1 else if rs.mipMode = 2 then 2 else 0) := by
  rw [getKernel_collapse]
  exact getKernelWithSphereAsProbe_ert_mip ..

/-- Claim C1: a pixel whose generated ray misses the probe box gets RGBA
`(0,0,0,0)` at linear index `y*texwidth + x`, depth `0` at the same index,
and no samples are taken. -/
theorem miss_writes_zero (e : RenderEnv) (x y : ℕ)
    (hx : x < e.width) (hy : y < e.height)
    (hmiss : (probeHit e x y).hit = false) :
    renderPixel e x y =
      ⟨some (y * e.texwidth + x, ⟨0, 0, 0, 0⟩),
       some (y * e.texwidth + x, 0), 0, ⟨0, 0, 0, 0⟩⟩ := by
  unfold renderPixel
  rw [if_neg (by omega), if_pos hmiss]

/-- Claim C9: the kernel is a pure function of its inputs; identical
launch inputs yield identical per-pixel outputs. -/
theorem render_deterministic (e1 e2 : RenderEnv) (x y : ℕ) (h : e1 = e2) :
    renderPixel e1 x y = renderPixel e2 x y := by
  rw [h]

/-! ## Alpha invariants of the stepping loop -/

/-- The state carried out of one loop iteration, whether it breaks or
continues. -/
def loopOut : LoopState ⊕ LoopState → LoopState
  | .inl s => s
  | .inr s => s

theorem applyLighting_w (e : LoopEnv) (s : LoopState) (texCoord : Vec3) (src : Vec4) :
    (applyLighting e s texCoord src).w = src.w := by
  unfold applyLighting
  split_ifs <;> simp [blinnPhong_w]

theorem applyOpacityCorrection_w (e : LoopEnv) (src : Vec4)
    (hpow : ∀ a, 0 ≤ a → a ≤ 1 → 0 ≤ e.ops.powf a e.dist ∧ e.ops.powf a e.dist ≤ 1)
    (h0 : 0 ≤ src.w) (h1 : src.w ≤ 1) :
    0 ≤ (applyOpacityCorrection e src).w ∧ (applyOpacityCorrection e src).w ≤ 1 := by
  unfold applyOpacityCorrection
  split_ifs
  · obtain ⟨hp0, hp1⟩ := hpow (1 - src.w) (by linarith) (by linarith)
    constructor <;> simp <;> linarith
  · exact ⟨h0, h1⟩

theorem premultiply_w (mipMode : ℕ) (src : Vec4) :
    (premultiply mipMode src).w = src.w := by
  unfold premultiply
  split_ifs <;> rfl

theorem shadeAndCorrect_w (e : LoopEnv) (s : LoopState) (texCoord : Vec3) (src0 : Vec4)
    (hpow : ∀ a, 0 ≤ a → a ≤ 1 → 0 ≤ e.ops.powf a e.dist ∧ e.ops.powf a e.dist ≤ 1)
    (h0 : 0 ≤ src0.w) (h1 : src0.w ≤ 1) :
    0 ≤ (shadeAndCorrect e s texCoord src0).w ∧ (shadeAndCorrect e s texCoord src0).w ≤ 1 := by
  unfold shadeAndCorrect
  rw [premultiply_w]
  refine applyOpacityCorrection_w e _ hpow ?_ ?_ <;> rw [applyLighting_w] <;> assumption

theorem advanceStep_dst (e : LoopEnv) (s : LoopState) :
    (loopOut (advanceStep e s)).dst = s.dst := by
  simp only [advanceStep]
  split_ifs <;> rfl

theorem advanceStep_samples (e : LoopEnv) (s : LoopState) :
    (loopOut (advanceStep e s)).samples = s.samples := by
  simp only [advanceStep]
  split_ifs <;> rfl

theorem depthBookkeeping_dst (s : LoopState) : (depthBookkeeping s).dst = s.dst := by
  unfold depthBookkeeping
  split_ifs <;> rfl

theorem depthBookkeeping_samples (s : LoopState) :
    (depthBookkeeping s).samples = s.samples := by
  unfold depthBookkeeping
  split_ifs <;> rfl

theorem mipUpdate_mip0 (src dst : Vec4) : mipUpdate 0 src dst = dst := by
  unfold mipUpdate
  norm_num

theorem mipUpdate_mip1_w (src dst : Vec4) : (mipUpdate 1 src dst).w = 1 := by
  unfold mipUpdate
  norm_num

/-- In a sampled iteration, the outgoing `dst` is the composite update of
the incoming one and `samples` grows by one. -/
theorem sampleStep_char (e : LoopEnv) (s : LoopState) :
    (loopOut (sampleStep e s)).dst = compositeDst e s ∧
    (loopOut (sampleStep e s)).samples = s.samples + 1 := by
  simp only [sampleStep]
  split_ifs <;>
    simp [loopOut, depthBookkeeping_dst, depthBookkeeping_samples]

theorem compositeDst_w_mip0 (e : LoopEnv) (hm : e.cfg.mipMode = 0)
    (htf : ∀ q, 0 ≤ (e.tf q).w ∧ (e.tf q).w ≤ 1)
    (hpow : ∀ a, 0 ≤ a → a ≤ 1 → 0 ≤ e.ops.powf a e.dist ∧ e.ops.powf a e.dist ≤ 1)
    (s : LoopState) (hw0 : 0 ≤ s.dst.w) (hw1 : s.dst.w ≤ 1) :
    0 ≤ (compositeDst e s).w ∧ (compositeDst e s).w ≤ 1 := by
  have hsrc := shadeAndCorrect_w e s (calcTexCoord s.pos e.volPos e.volSizeHalf)
    (e.tf (e.vol (calcTexCoord s.pos e.volPos e.volSizeHalf))) hpow
    ((htf _).1) ((htf _).2)
  unfold compositeDst
  simp only [hm, mipUpdate_mip0]
  split_ifs
  · constructor <;> simp <;> nlinarith [hsrc.1, hsrc.2]
  · exact ⟨hw0, hw1⟩

theorem loopIter_w_mip0 (e : LoopEnv) (hm : e.cfg.mipMode = 0)
    (htf : ∀ q, 0 ≤ (e.tf q).w ∧ (e.tf q).w ≤ 1)
    (hpow : ∀ a, 0 ≤ a → a ≤ 1 → 0 ≤ e.ops.powf a e.dist ∧ e.ops.powf a e.dist ≤ 1)
    (s : LoopState) (hw0 : 0 ≤ s.dst.w) (hw1 : s.dst.w ≤ 1) :
    0 ≤ (loopOut (loopIter e s)).dst.w ∧ (loopOut (loopIter e s)).dst.w ≤ 1 := by
  simp only [loopIter]
  split_ifs <;>
    first
      | (rw [advanceStep_dst]; exact ⟨hw0, hw1⟩)
      | (rw [(sampleStep_char e s).1]
         exact compositeDst_w_mip0 e hm htf hpow s hw0 hw1)

theorem renderLoop_w_mip0 (e : LoopEnv) (hm : e.cfg.mipMode = 0)
    (htf : ∀ q, 0 ≤ (e.tf q).w ∧ (e.tf q).w ≤ 1)
    (hpow : ∀ a, 0 ≤ a → a ≤ 1 → 0 ≤ e.ops.powf a e.dist ∧ e.ops.powf a e.dist ≤ 1) :
    ∀ (n : ℕ) (s : LoopState), 0 ≤ s.dst.w → s.dst.w ≤ 1 →
      0 ≤ (renderLoop e n s).dst.w ∧ (renderLoop e n s).dst.w ≤ 1 := by
  intro n
  induction n with
  | zero => intro s h0 h1; exact ⟨h0, h1⟩
  | succ n ih =>
    intro s h0 h1
    have h := loopIter_w_mip0 e hm htf hpow s h0 h1
    rw [renderLoop]
    rcases hit : loopIter e s with s1 | s1
    · rw [hit] at h; exact h
    · rw [hit] at h; exact ih s1 h.1 h.2

theorem byteOf_le_and_eq (a : ℚ) :
    byteOf a ≤ 255 ∧ (byteOf a = 255 ↔ clampQ a = 1) := by
  have hc0 : 0 ≤ clampQ a := le_max_left 0 _
  have hc1 : clampQ a ≤ 1 := max_le (by norm_num) (min_le_left 1 a)
  have hfl0 : (0:ℤ) ≤ Int.floor (clampQ a * 255) := Int.floor_nonneg.mpr (by positivity)
  unfold byteOf
  constructor
  · refine Int.toNat_le.mpr ?_
    have hmul : clampQ a * 255 ≤ 255 := by nlinarith
    calc Int.floor (clampQ a * 255) ≤ Int.floor ((255:ℚ)) := Int.floor_le_floor hmul
      _ = 255 := by norm_num
  · constructor
    · intro h
      have hfl : (255:ℤ) ≤ Int.floor (clampQ a * 255) := by omega
      have hq : (255:ℚ) ≤ clampQ a * 255 := by
        have := Int.le_floor.mp hfl
        push_cast at this
        linarith
      nlinarith
    · intro h
      rw [h]
      norm_num
      rfl

theorem compositeDst_w_mip1 (e : LoopEnv) (hm : e.cfg.mipMode = 1) (s : LoopState) :
    (compositeDst e s).w = 1 := by
  unfold compositeDst
  simp only [hm]
  have hd : (decide ((1:ℕ) = 0)) = false := by decide
  simp [hd, mipUpdate_mip1_w]

theorem loopIter_mip1 (e : LoopEnv) (hm : e.cfg.mipMode = 1) (s : LoopState)
    (hI : 1 ≤ s.samples → s.dst.w = 1) :
    1 ≤ (loopOut (loopIter e s)).samples → (loopOut (loopIter e s)).dst.w = 1 := by
  simp only [loopIter]
  split_ifs <;>
    first
      | (intro h
         rw [advanceStep_dst]
         rw [advanceStep_samples] at h
         exact hI h)
      | (intro _
         rw [(sampleStep_char e s).1]
         exact compositeDst_w_mip1 e hm s)

theorem renderLoop_mip1 (e : LoopEnv) (hm : e.cfg.mipMode = 1) :
    ∀ (n : ℕ) (s : LoopState), (1 ≤ s.samples → s.dst.w = 1) →
      (1 ≤ (renderLoop e n s).samples → (renderLoop e n s).dst.w = 1) := by
  intro n
  induction n with
  | zero => intro s hI; exact hI
  | succ n ih =>
    intro s hI
    have h := loopIter_mip1 e hm s hI
    rw [renderLoop]
    rcases hit : loopIter e s with s1 | s1
    · rw [hit] at h; exact h
    · rw [hit] at h; exact ih s1 h

/-- Claim C4: in MIP MAX mode (`mipMode = 1`), regardless of the
opacity-correction (or lighting, or early-termination) setting, if the
stepping loop takes at least one non-clipped, non-skipped sample, the
final accumulated alpha is exactly 1 and the framebuffer alpha byte is
exactly 255. -/
theorem mip_max_alpha_one (e : LoopEnv) (hm : e.cfg.mipMode = 1) (n : ℕ) (s : LoopState)
    (hs : s.samples = 0) (hF : 1 ≤ (renderLoop e n s).samples) :
    (renderLoop e n s).dst.w = 1 ∧ (rgbaFloatToInt (renderLoop e n s).dst).w = 255 := by
  have h1 := renderLoop_mip1 e hm n s (fun hge => absurd hge (by omega)) hF
  refine ⟨h1, ?_⟩
  show byteOf (renderLoop e n s).dst.w = 255
  rw [h1]
  with_unfolding_all rfl

/-- Claim C2: in NONE compositing (`mipMode = 0`), if every
transfer-function alpha lies in `[0,1]` and `powf` maps `[0,1]` bases into
`[0,1]` (the real `powf` does, since the step length is positive), then
the front-to-back accumulation keeps `dst.w` within `[0,1]` for any number
of loop iterations from any in-range state, and the alpha byte produced by
`rgbaFloatToInt` is at most 255, reaching 255 exactly when the post-clamp
alpha equals 1. -/
theorem none_mode_alpha_bounded (e : LoopEnv) (hm : e.cfg.mipMode = 0)
    (htf : ∀ q, 0 ≤ (e.tf q).w ∧ (e.tf q).w ≤ 1)
    (hpow : ∀ a, 0 ≤ a → a ≤ 1 → 0 ≤ e.ops.powf a e.dist ∧ e.ops.powf a e.dist ≤ 1) :
    (∀ (n : ℕ) (s : LoopState), 0 ≤ s.dst.w → s.dst.w ≤ 1 →
        0 ≤ (renderLoop e n s).dst.w ∧ (renderLoop e n s).dst.w ≤ 1) ∧
    (∀ v : Vec4, (rgbaFloatToInt v).w ≤ 255 ∧
        ((rgbaFloatToInt v).w = 255 ↔ clampQ v.w = 1)) :=
  ⟨renderLoop_w_mip0 e hm htf hpow, fun v => byteOf_le_and_eq v.w⟩

/-! ## Concrete environments used by the witnesses -/

/-- Concrete float oracles for witnesses. -/
def cOps : FloatOps := ⟨fun _ => 2, fun _ _ => 0⟩

/-- Identity `matrix4x4`. -/
def idMat : Matrix4 := ⟨⟨1, 0, 0, 0⟩, ⟨0, 1, 0, 0⟩, ⟨0, 0, 1, 0⟩, ⟨0, 0, 0, 1⟩⟩

/-- A plain kernel configuration (NONE compositing, no clipping). -/
def cFlags : RenderFlags :=
  { earlyRayTermination := true, spaceSkipping := true, frontToBack := true,
    bpc := 1, mipMode := 0, lighting := false, opacityCorrection := false,
    jittering := false, clipPlane := false, clipSphere := false,
    useSphereAsProbe := false }

/-- A 1x1 launch whose single ray misses the probe box at `(10,10,10)`. -/
def cMissEnv : RenderEnv :=
  { cfg := cFlags, ops := cOps,
    vol := fun _ => 0, tf := fun _ => ⟨0, 0, 0, 0⟩, rand := fun _ => ⟨0, 0, 0, 0⟩,
    invViewMatrix := idMat, mvPrMatrix := idMat,
    width := 1, height := 1, texwidth := 1,
    backgroundColor := ⟨0, 0, 0, 0⟩, dist := 1,
    volPos := ⟨0, 0, 0⟩, volSizeHalf := ⟨1, 1, 1⟩,
    probePos := ⟨10, 10, 10⟩, probeSizeHalf := ⟨1, 1, 1⟩,
    L := ⟨0, 0, 1⟩, H := ⟨0, 0, 1⟩,
    sphereCenter := ⟨0, 0, 0⟩, sphereRadius := 1,
    planeNormal := ⟨0, 1, 0⟩, planeDist := 0, dp := .vvUchar }

theorem miss_writes_zero_witness :
    (0 < cMissEnv.width ∧ 0 < cMissEnv.height ∧ (probeHit cMissEnv 0 0).hit = false) ∧
    renderPixel cMissEnv 0 0 =
      ⟨some (0 * cMissEnv.texwidth + 0, ⟨0, 0, 0, 0⟩),
       some (0 * cMissEnv.texwidth + 0, 0), 0, ⟨0, 0, 0, 0⟩⟩ :=
  ⟨⟨by decide, by decide, by with_unfolding_all rfl⟩,
   miss_writes_zero cMissEnv 0 0 (by decide) (by decide) (by with_unfolding_all rfl)⟩

theorem render_deterministic_witness :
    cMissEnv = cMissEnv ∧ renderPixel cMissEnv 0 0 = renderPixel cMissEnv 0 0 :=
  ⟨rfl, render_deterministic cMissEnv cMissEnv 0 0 rfl⟩

/-- A concrete loop environment in NONE mode with a half-transparent
transfer function. -/
def cLoopEnv0 : LoopEnv :=
  { cfg := cFlags, ops := cOps,
    vol := fun _ => 0, tf := fun _ => ⟨1, 1, 0, 1/2⟩,
    dist := 1, tfar := 2, tpnear := 0, nddot := 0, tsnear := 0, tsfar := 0,
    volPos := ⟨0, 0, 0⟩, volSizeHalf := ⟨1, 1, 1⟩, step := ⟨0, 0, 1⟩,
    sphereCenter := ⟨0, 0, 0⟩, planeNormal := ⟨0, 1, 0⟩,
    L := ⟨0, 0, 1⟩, H := ⟨0, 0, 1⟩ }

/-- The loop state at `tnear = 0` with zero-initialized `dst`. -/
def cState0 : LoopState :=
  ⟨⟨0, 0, 0, 0⟩, 0, ⟨0, 0, 0⟩, false, false, 0, ⟨0, 0, 0⟩, 0, 0⟩

theorem none_mode_alpha_bounded_witness :
    (cLoopEnv0.cfg.mipMode = 0 ∧
      (∀ q : ℚ, 0 ≤ (cLoopEnv0.tf q).w ∧ (cLoopEnv0.tf q).w ≤ 1) ∧
      (∀ a : ℚ, 0 ≤ a → a ≤ 1 →
        0 ≤ cLoopEnv0.ops.powf a cLoopEnv0.dist ∧ cLoopEnv0.ops.powf a cLoopEnv0.dist ≤ 1)) ∧
    (0 ≤ (renderLoop cLoopEnv0 3 cState0).dst.w ∧
      (renderLoop cLoopEnv0 3 cState0).dst.w ≤ 1) ∧
    ((rgbaFloatToInt ⟨0, 0, 0, 2⟩).w ≤ 255 ∧
      ((rgbaFloatToInt ⟨0, 0, 0, 2⟩).w = 255 ↔ clampQ (2 : ℚ) = 1)) :=
  ⟨⟨rfl, fun _ => by constructor <;> norm_num [cLoopEnv0],
    fun a _ _ => by constructor <;> norm_num [cLoopEnv0, cOps]⟩,
   (none_mode_alpha_bounded cLoopEnv0 rfl
      (fun _ => by constructor <;> norm_num [cLoopEnv0])
      (fun a _ _ => by constructor <;> norm_num [cLoopEnv0, cOps])).1 3 cState0
      (by norm_num [cState0]) (by norm_num [cState0]),
   (none_mode_alpha_bounded cLoopEnv0 rfl
      (fun _ => by constructor <;> norm_num [cLoopEnv0])
      (fun a _ _ => by constructor <;> norm_num [cLoopEnv0, cOps])).2 ⟨0, 0, 0, 2⟩⟩

/-- The NONE-mode flags with MIP MAX selected instead. -/
def cFlags1 : RenderFlags :=
  { cFlags with mipMode := 1, earlyRayTermination := false }

/-- The `cLoopEnv0` in MIP MAX mode with `tfar = 0`, so exactly one sample is
taken. -/
def cLoopEnv1 : LoopEnv := { cLoopEnv0 with cfg := cFlags1, tfar := 0 }

theorem mip_max_alpha_one_witness :
    (cLoopEnv1.cfg.mipMode = 1 ∧ cState0.samples = 0 ∧
      1 ≤ (renderLoop cLoopEnv1 5 cState0).samples) ∧
    ((renderLoop cLoopEnv1 5 cState0).dst.w = 1 ∧
      (rgbaFloatToInt (renderLoop cLoopEnv1 5 cState0).dst).w = 255) :=
  ⟨⟨rfl, rfl, by
      have h : (renderLoop cLoopEnv1 5 cState0).samples = 1 := by with_unfolding_all rfl
      omega⟩,
   mip_max_alpha_one cLoopEnv1 rfl 5 cState0 rfl (by
      have h : (renderLoop cLoopEnv1 5 cState0).samples = 1 := by with_unfolding_all rfl
      omega)⟩

/-! ## Host side: 16-bit rebit at upload (`initVolumeTexture`, bpc = 2)

The loop `for (int i=0; i<size; i+=2) { int val = (raw[i] << 8) | raw[i+1];
val >>= 4; data[i] = raw[i]; data[i+1] = val; }` over the raw byte buffer;
storing `val` into the `uchar` buffer truncates it mod `2^8`. -/

/-- The rebit loop of `initVolumeTexture` for `bpc = 2`, over the byte
buffer processed two bytes at a time. -/
def rebit16 : List ℕ → List ℕ
  | a :: b :: rest => a :: ((((a <<< 8) ||| b) >>> 4) % 256) :: rebit16 rest
  | l => l

/-- The transform claimed by the spec, read with `low byte` denoting the
low-order byte of the big-endian 16-bit value (the odd-index byte): the
low byte is copied through and the high (even-index) byte is replaced by
the shifted result mod `2^8`. -/
def rebit16SpecLowCopied : List ℕ → List ℕ
  | a :: b :: rest => ((((a <<< 8) ||| b) >>> 4) % 256) :: b :: rebit16SpecLowCopied rest
  | l => l

/-- Claim C7, counterexample: on the byte pair `(0, 16)` (big-endian value
16) the code produces `(0, 1)` — high byte copied, low byte replaced —
whereas the claimed transform produces `(1, 16)`. -/
theorem rebit16_counterexample :
    rebit16 [0, 16] = [0, 1] ∧ rebit16SpecLowCopied [0, 16] = [1, 16] ∧
    rebit16 [0, 16] ≠ rebit16SpecLowCopied [0, 16] := by
  decide

theorem rebit16_length (l : List ℕ) : (rebit16 l).length = l.length := by
  induction l using rebit16.induct with
  | case1 a b rest ih => simp [rebit16, ih]
  | case2 l h =>
    rw [rebit16]
    exact h

/-- Claim C7 (amended): for every byte pair of the input buffer, the pair
is treated as a big-endian 16-bit value and right-shifted by 4; the FIRST
byte of the pair (the big-endian high byte) is copied through unchanged,
and the SECOND byte (the big-endian low byte) is replaced by the shifted
result modulo `2^8`. -/
theorem rebit16_pairs (l : List ℕ) (k : ℕ) (h : 2 * k + 1 < l.length) :
    (rebit16 l)[2 * k]? = l[2 * k]? ∧
    (∀ a b, l[2 * k]? = some a → l[2 * k + 1]? = some b →
      (rebit16 l)[2 * k + 1]? = some ((((a <<< 8) ||| b) >>> 4) % 256)) := by
  induction k generalizing l with
  | zero =>
    match l, h with
    | a :: b :: rest, _ =>
      refine ⟨rfl, ?_⟩
      intro a' b' ha hb
      simp only [Nat.mul_zero, List.getElem?_cons_zero, List.getElem?_cons_succ,
        Option.some.injEq] at ha hb
      subst ha
      subst hb
      simp [rebit16]
  | succ k ih =>
    match l, h with
    | a :: b :: rest, h =>
      have h' : 2 * k + 1 < rest.length := by
        simp only [List.length_cons] at h
        omega
      obtain ⟨ih1, ih2⟩ := ih rest h'
      have e1 : 2 * (k + 1) = 2 * k + 1 + 1 := by ring
      have e2 : 2 * (k + 1) + 1 = (2 * k + 1 + 1) + 1 := by ring
      constructor
      · rw [e1]
        show (a :: ((((a <<< 8) ||| b) >>> 4) % 256) :: rebit16 rest)[2*k+1+1]? =
          (a :: b :: rest)[2*k+1+1]?
        simp only [List.getElem?_cons_succ]
        exact ih1
      · intro a' b' ha hb
        rw [e1] at ha
        rw [e2] at hb
        simp only [List.getElem?_cons_succ] at ha hb
        rw [e2]
        show (a :: ((((a <<< 8) ||| b) >>> 4) % 256) :: rebit16 rest)[2*k+1+1+1]? = _
        simp only [List.getElem?_cons_succ]
        exact ih2 a' b' ha hb

theorem rebit16_pairs_witness :
    (2 * 1 + 1 < ([0, 16, 7, 9] : List ℕ).length) ∧
    ((rebit16 [0, 16, 7, 9])[2 * 1]? = ([0, 16, 7, 9] : List ℕ)[2 * 1]? ∧
      (∀ a b, ([0, 16, 7, 9] : List ℕ)[2 * 1]? = some a →
        ([0, 16, 7, 9] : List ℕ)[2 * 1 + 1]? = some b →
        (rebit16 [0, 16, 7, 9])[2 * 1 + 1]? = some ((((a <<< 8) ||| b) >>> 4) % 256))) :=
  ⟨by decide, rebit16_pairs [0, 16, 7, 9] 1 (by decide)⟩

/-! ## Host side: `computeSpaceSkippingTexture` -/

/-- The inner loop of `computeSpaceSkippingTexture`:
`for (j = lo; j <= hi; ++j) if (_rgbaTF[j*4+3] > 0) return not-skippable`.
`alphaAt k` models the float array entry `_rgbaTF[k]`. -/
def skipCell (alphaAt : ℤ → ℚ) (lo hi : ℤ) : Bool :=
  if h : hi < lo then true
  else if 0 < alphaAt (lo * 4 + 3) then false
  else skipCell alphaAt (lo + 1) hi
termination_by (hi + 1 - lo).toNat
decreasing_by
  simp_wf
  omega

/-- The renderer state touched by `computeSpaceSkippingTexture`: the
transfer function, the per-cell min/max arrays, the `_spaceSkipping` flag
and the boolean cell array (host arrays as `Option` so that freeing them
is expressible). -/
structure SkipTFState where
  bpc : ℕ
  rgbaTF : ℤ → ℚ
  cellMinValues : Option (ℕ → ℤ)
  cellMaxValues : Option (ℕ → ℤ)
  spaceSkipping : Bool
  spaceSkippingArray : Option (ℕ → Bool)

/-- The `computeSpaceSkippingTexture`: for `bpc = 1` rebuild the boolean cell
array from the min/max arrays and the transfer function; otherwise disable
space skipping and free the host arrays. -/
def computeSpaceSkippingTexture (st : SkipTFState) : SkipTFState :=
  if st.bpc = 1 then
    let mins := st.cellMinValues.getD (fun _ => 0)
    let maxs := st.cellMaxValues.getD (fun _ => 0)
    { st with spaceSkippingArray := some (fun i => skipCell st.rgbaTF (mins i) (maxs i)) }
  else
    { st with spaceSkipping := false, spaceSkippingArray := none,
              cellMinValues := none, cellMaxValues := none }

/-- The flag stored for cell `i` after the rebuild. -/
def skipFlag (st : SkipTFState) (i : ℕ) : Bool :=
  (st.spaceSkippingArray.getD (fun _ => false)) i

theorem skipCell_eq_true_iff (alphaAt : ℤ → ℚ) (lo hi : ℤ) :
    skipCell alphaAt lo hi = true ↔
      ∀ j : ℤ, lo ≤ j → j ≤ hi → alphaAt (j * 4 + 3) ≤ 0 := by
  generalize hn : (hi + 1 - lo).toNat = n
  induction n generalizing lo with
  | zero =>
    have hlt : hi < lo := by omega
    rw [skipCell, dif_pos hlt]
    constructor
    · intro _ j hj1 hj2
      exact absurd hlt (by omega)
    · intro _
      rfl
  | succ n ih =>
    have hle : lo ≤ hi := by omega
    rw [skipCell, dif_neg (by omega)]
    by_cases hpos : 0 < alphaAt (lo * 4 + 3)
    · rw [if_pos hpos]
      simp only [Bool.false_eq_true, false_iff]
      push_neg
      exact ⟨lo, le_refl lo, hle, hpos⟩
    · rw [if_neg hpos]
      rw [ih (lo + 1) (by omega)]
      constructor
      · intro hall j hj1 hj2
        rcases eq_or_lt_of_le hj1 with heq | hlt2
        · rw [← heq]
          exact le_of_not_lt hpos
        · exact hall j (by omega) hj2
      · intro hall j hj1 hj2
        exact hall j (by omega) hj2

/-- Claim C5: with a non-negative transfer function (the program invariant
for `_rgbaTF`), after `computeSpaceSkippingTexture` runs with `bpc = 1` a
cell `i` is flagged skippable iff the transfer-function alpha entry
`_rgbaTF[j*4+3]` is 0 for every scalar `j` in `[cellMin i, cellMax i]`;
with `bpc = 2` the feature is silently disabled (`_spaceSkipping := false`)
and the host arrays are freed. -/
theorem space_skipping_flag_iff (st : SkipTFState) (htf : ∀ k, 0 ≤ st.rgbaTF k) :
    (st.bpc = 1 → ∀ mins maxs, st.cellMinValues = some mins →
      st.cellMaxValues = some maxs →
      ∀ i, (skipFlag (computeSpaceSkippingTexture st) i = true ↔
        ∀ j : ℤ, mins i ≤ j → j ≤ maxs i → st.rgbaTF (j * 4 + 3) = 0)) ∧
    (st.bpc = 2 → (computeSpaceSkippingTexture st).spaceSkipping = false ∧
      (computeSpaceSkippingTexture st).spaceSkippingArray = none ∧
      (computeSpaceSkippingTexture st).cellMinValues = none ∧
      (computeSpaceSkippingTexture st).cellMaxValues = none) := by
  constructor
  · intro h1 mins maxs hm hM i
    unfold computeSpaceSkippingTexture skipFlag
    rw [if_pos h1]
    simp only [hm, hM, Option.getD_some]
    rw [skipCell_eq_true_iff]
    constructor
    · intro hall j hj1 hj2
      exact le_antisymm (hall j hj1 hj2) (htf _)
    · intro hall j hj1 hj2
      exact le_of_eq (hall j hj1 hj2)
  · intro h2
    unfold computeSpaceSkippingTexture
    rw [if_neg (by omega)]
    exact ⟨rfl, rfl, rfl, rfl⟩

/-- Concrete state for the C5 witness: a 256-entry transfer function that
is opaque only at scalar 1 (alpha entry index 7). -/
def cSkipState : SkipTFState :=
  { bpc := 1,
    rgbaTF := fun k => if k = 7 then 1/2 else 0,
    cellMinValues := some (fun i => if i = 0 then 0 else 3),
    cellMaxValues := some (fun i => if i = 0 then 1 else 5),
    spaceSkipping := true,
    spaceSkippingArray := none }

theorem space_skipping_flag_iff_witness :
    (∀ k, 0 ≤ cSkipState.rgbaTF k) ∧
    (cSkipState.bpc = 1 → ∀ mins maxs, cSkipState.cellMinValues = some mins →
      cSkipState.cellMaxValues = some maxs →
      ∀ i, (skipFlag (computeSpaceSkippingTexture cSkipState) i = true ↔
        ∀ j : ℤ, mins i ≤ j → j ≤ maxs i → cSkipState.rgbaTF (j * 4 + 3) = 0)) :=
  ⟨fun k => by dsimp [cSkipState]; split_ifs <;> norm_num,
   (space_skipping_flag_iff cSkipState
      (fun k => by dsimp [cSkipState]; split_ifs <;> norm_num)).1⟩

/-! ## Host side: `calcSpaceSkippingGrid`

Translated literally from the source, including the loop bound of the
innermost spatial loop: `for (int x=0; x<h_numCells[2]; ++x)` (the bound is
`h_numCells[2]`, not `h_numCells[0]`).  `s0,s1,s2` are
`(int)vd->getSize()[d]`; `raw k` is the byte `vd->getRaw()[k]`. -/

/-- The `INT_MAX`. -/
def INT_MAX : ℤ := 2147483647

/-- The integers `lo, lo+1, ..., hi-1` (a C `for (v=lo; v<hi; ++v)`
range). -/
def rangeZ (lo hi : ℤ) : List ℤ :=
  (List.range (hi - lo).toNat).map (fun k => lo + (k : ℤ))

/-- The min/max accumulation over one cell's voxels (initialised to
`INT_MAX` / `-INT_MAX` as in the source). -/
def cellMinMax (raw : ℤ → ℤ) (s0 s1 : ℤ) (f0 t0 f1 t1 f2 t2 : ℤ) : ℤ × ℤ :=
  ((rangeZ f2 t2).flatMap fun vz =>
    (rangeZ f1 t1).flatMap fun vy =>
      (rangeZ f0 t0).map fun vx =>
        raw (vz * (s0 * s1) + vy * s0 + vx)).foldl
    (fun mm v => (if v < mm.1 then v else mm.1, if mm.2 < v then v else mm.2))
    (INT_MAX, -INT_MAX)

/-- The two host arrays written by `calcSpaceSkippingGrid`; `none` models
an entry the function never wrote. -/
structure GridArrays where
  cellMinValues : ℤ → Option ℤ
  cellMaxValues : ℤ → Option ℤ

/-- Store min/max for the cell at linear index `idx`. -/
def writeCell (g : GridArrays) (idx mn mx : ℤ) : GridArrays :=
  ⟨fun k => if k = idx then some mn else g.cellMinValues k,
   fun k => if k = idx then some mx else g.cellMaxValues k⟩

/-- The `calcSpaceSkippingGrid` for cell counts `(n0,n1,n2)` and integer volume
size `(s0,s1,s2)`.  The x-loop runs to `n2` and the linear index is
`x*n1*n2 + y*n2 + z`, exactly as in the source. -/
def calcSpaceSkippingGrid (raw : ℤ → ℤ) (n0 n1 n2 s0 s1 s2 : ℤ) : GridArrays :=
  let cellSizeAll0 := Int.tdiv s0 n0
  let cellSizeAll1 := Int.tdiv s1 n1
  let cellSizeAll2 := Int.tdiv s2 n2
  let lastCellSize0 := cellSizeAll0 + Int.tmod s0 n0
  let lastCellSize1 := cellSizeAll1 + Int.tmod s1 n1
  let lastCellSize2 := cellSizeAll2 + Int.tmod s2 n2
  (rangeZ 0 n2).foldl
    (fun g z =>
      let cs2 := if z = n2 - 1 then lastCellSize2 else cellSizeAll2
      let f2 := cellSizeAll2 * z
      (rangeZ 0 n1).foldl
        (fun g y =>
          let cs1 := if y = n1 - 1 then lastCellSize1 else cellSizeAll1
          let f1 := cellSizeAll1 * y
          (rangeZ 0 n2).foldl
            (fun g x =>
              let cs0 := if x = n0 - 1 then lastCellSize0 else cellSizeAll0
              let f0 := cellSizeAll0 * x
              let mm := cellMinMax raw s0 s1 f0 (f0 + cs0) f1 (f1 + cs1) f2 (f2 + cs2)
              writeCell g (x * n1 * n2 + y * n2 + z) mm.1 mm.2)
            g)
        g)
    ⟨fun _ => none, fun _ => none⟩

/-- Claim C6, code bug: with `numCells = (2,1,1)` and volume size
`(2,1,1)` (every voxel byte 5), the partition has two cells along x, and
cell `(1,0,0)` (linear index 1) contains the voxel at `vx = 1`; but the
innermost loop iterates `x < numCells[2] = 1`, so that cell's min/max are
never written, while cell 0 gets `(5,5)`. -/
theorem grid_xloop_bug :
    (calcSpaceSkippingGrid (fun _ => 5) 2 1 1 2 1 1).cellMinValues 0 = some 5 ∧
    (calcSpaceSkippingGrid (fun _ => 5) 2 1 1 2 1 1).cellMaxValues 0 = some 5 ∧
    (calcSpaceSkippingGrid (fun _ => 5) 2 1 1 2 1 1).cellMinValues 1 = none ∧
    (calcSpaceSkippingGrid (fun _ => 5) 2 1 1 2 1 1).cellMaxValues 1 = none := by
  constructor
  · with_unfolding_all rfl
  constructor
  · with_unfolding_all rfl
  constructor
  · with_unfolding_all rfl
  · with_unfolding_all rfl

/-! ## Host side: `initVolumeTexture` frame upload and rollback, and the
`compositeVolume` guard -/

/-- The `iDivUp`. -/
def iDivUp (a b : ℤ) : ℤ :=
  if Int.tmod a b ≠ 0 then Int.tdiv a b + 1 else Int.tdiv a b

/-- The state produced by `initVolumeTexture`: per-frame device arrays
(`some ()` = allocated, `none` = never allocated or freed), the data
copied to each frame's array, the `_volumeCopyToGpuOk` flag and the
`outOfMemFrame` marker. -/
structure VolTexState where
  arrays : ℕ → Option Unit
  uploaded : ℕ → Option (List ℕ)
  volumeCopyToGpuOk : Bool
  outOfMemFrame : Option ℕ

/-- The bytes uploaded for frame `f`: `vd->getRaw(f)` for `bpc = 1`, the
rebit of `vd->getRaw(0)` for `bpc = 2` (the source reads frame 0's raw
buffer inside the per-frame loop). -/
def frameData (bpc : ℕ) (raws : ℕ → List ℕ) (f : ℕ) : List ℕ :=
  if bpc = 1 then raws f else rebit16 (raws 0)

/-- The per-frame loop of `initVolumeTexture`: try to allocate frame `f`'s
3-D array; on failure record it in `_volumeCopyToGpuOk` and
`outOfMemFrame` and break; on success copy the frame data and continue. -/
def uploadFrames (bpc : ℕ) (allocOk : ℕ → Bool) (raws : ℕ → List ℕ) :
    ℕ → ℕ → VolTexState → VolTexState
  | 0, _, st => st
  | rem + 1, f, st =>
    if allocOk f then
      uploadFrames bpc allocOk raws rem (f + 1)
        { st with volumeCopyToGpuOk := true,
                  arrays := fun g => if g = f then some () else st.arrays g,
                  uploaded := fun g =>
                    if g = f then some (frameData bpc raws f) else st.uploaded g }
    else
      { st with volumeCopyToGpuOk := false, outOfMemFrame := some f }

/-- The rollback after the loop (lines 1332-1351): if a frame ran out of
memory, frames `0..outOfMemFrame` are freed and nulled. -/
def finalizeVolTex (st : VolTexState) : VolTexState :=
  match st.outOfMemFrame with
  | some k => { st with arrays := fun f => if f ≤ k then none else st.arrays f }
  | none => st

/-- The `initVolumeTexture` for a descriptor with `frames` frames. -/
def initVolumeTexture (frames bpc : ℕ) (allocOk : ℕ → Bool) (raws : ℕ → List ℕ) :
    VolTexState :=
  finalizeVolTex
    (uploadFrames bpc allocOk raws frames 0 ⟨fun _ => none, fun _ => none, true, none⟩)

/-- The guard at the top of `compositeVolume` (lines 936-940) together
with the grid-size computation: with `_volumeCopyToGpuOk = false` the
function returns before any kernel launch. -/
def compositeVolume (volumeCopyToGpuOk : Bool) (w h : ℤ) : Option (ℤ × ℤ) :=
  if volumeCopyToGpuOk = false then none
  else some (iDivUp w 16, iDivUp h 16)

theorem uploadFrames_untouched (bpc : ℕ) (allocOk : ℕ → Bool) (raws : ℕ → List ℕ) :
    ∀ (rem f : ℕ) (st : VolTexState) (g : ℕ), g < f →
      (uploadFrames bpc allocOk raws rem f st).uploaded g = st.uploaded g := by
  intro rem
  induction rem with
  | zero => intro f st g hg; rfl
  | succ rem ih =>
    intro f st g hg
    rw [uploadFrames]
    by_cases hA : allocOk f
    · rw [if_pos hA, ih (f + 1) _ g (by omega)]
      simp only []
      rw [if_neg (by omega)]
    · rw [if_neg hA]

theorem uploadFrames_fail (bpc : ℕ) (allocOk : ℕ → Bool) (raws : ℕ → List ℕ)
    (k : ℕ) (hk : allocOk k = false) :
    ∀ (rem f : ℕ) (st : VolTexState), f ≤ k → k < f + rem →
      (∀ j, f ≤ j → j < k → allocOk j = true) →
      (uploadFrames bpc allocOk raws rem f st).volumeCopyToGpuOk = false ∧
      (uploadFrames bpc allocOk raws rem f st).outOfMemFrame = some k ∧
      (∀ g, k ≤ g → (uploadFrames bpc allocOk raws rem f st).uploaded g = st.uploaded g) := by
  intro rem
  induction rem with
  | zero =>
    intro f st h1 h2 h3
    exact absurd h2 (by omega)
  | succ rem ih =>
    intro f st hfk hkr h3
    rw [uploadFrames]
    by_cases hf : f = k
    · rw [hf, if_neg (by simp [hk])]
      exact ⟨rfl, rfl, fun g hg => rfl⟩
    · have hA : allocOk f = true := h3 f le_rfl (by omega)
      rw [if_pos hA]
      obtain ⟨ho, hm, hu⟩ := ih (f + 1) _ (by omega) (by omega)
        (fun j hj1 hj2 => h3 j (by omega) hj2)
      refine ⟨ho, hm, fun g hg => ?_⟩
      rw [hu g hg]
      simp only []
      rw [if_neg (by omega)]

theorem uploadFrames_allOk (bpc : ℕ) (allocOk : ℕ → Bool) (raws : ℕ → List ℕ)
    (hok : ∀ j, allocOk j = true) :
    ∀ (rem f : ℕ) (st : VolTexState),
      (uploadFrames bpc allocOk raws rem f st).outOfMemFrame = st.outOfMemFrame ∧
      (∀ g, f ≤ g → g < f + rem →
        (uploadFrames bpc allocOk raws rem f st).uploaded g = some (frameData bpc raws g)) := by
  intro rem
  induction rem with
  | zero =>
    intro f st
    exact ⟨rfl, fun g h1 h2 => absurd h2 (by omega)⟩
  | succ rem ih =>
    intro f st
    rw [uploadFrames, if_pos (hok f)]
    obtain ⟨hm, hu⟩ := ih (f + 1)
      { st with volumeCopyToGpuOk := true,
                arrays := fun g => if g = f then some () else st.arrays g,
                uploaded := fun g =>
                  if g = f then some (frameData bpc raws f) else st.uploaded g }
    refine ⟨hm, fun g h1 h2 => ?_⟩
    by_cases hgf : g = f
    · rw [hgf, uploadFrames_untouched bpc allocOk raws rem (f + 1) _ f (by omega)]
      simp
    · exact hu g (by omega) (by omega)

/-- Claim C8: if the device refuses the 3-D array allocation at frame `k`
(`k < frames`, all earlier allocations succeeding), then
`initVolumeTexture` records the failure in `_volumeCopyToGpuOk`, marks
frame `k` as the out-of-memory frame, leaves the device arrays of frames
`0..k` freed/null, uploads no frame from `k` on, and `compositeVolume`
returns without computing a launch while the flag is false. -/
theorem alloc_failure_rollback (frames bpc k : ℕ) (allocOk : ℕ → Bool)
    (raws : ℕ → List ℕ) (w h : ℤ) (hk : k < frames) (hfail : allocOk k = false)
    (hpre : ∀ j, j < k → allocOk j = true) :
    (initVolumeTexture frames bpc allocOk raws).volumeCopyToGpuOk = false ∧
    (initVolumeTexture frames bpc allocOk raws).outOfMemFrame = some k ∧
    (∀ f, f ≤ k → (initVolumeTexture frames bpc allocOk raws).arrays f = none) ∧
    (∀ f, k ≤ f → (initVolumeTexture frames bpc allocOk raws).uploaded f = none) ∧
    compositeVolume (initVolumeTexture frames bpc allocOk raws).volumeCopyToGpuOk w h
      = none := by
  obtain ⟨ho, hm, hu⟩ := uploadFrames_fail bpc allocOk raws k hfail frames 0
    ⟨fun _ => none, fun _ => none, true, none⟩ (by omega) (by omega)
    (fun j _ hj => hpre j hj)
  unfold initVolumeTexture finalizeVolTex
  rw [hm]
  refine ⟨ho, rfl, fun f hf => ?_, fun f hf => ?_, ?_⟩
  · simp only []
    rw [if_pos hf]
  · exact hu f hf
  · rw [compositeVolume, if_pos ho]

/-- Claim C10: when every allocation succeeds, for `bpc = 2` every frame's
device array is filled with the rebit of frame 0's raw bytes (hence the
uploaded data is the same for all frames), while for `bpc = 1` each frame
`f` receives its own raw buffer. -/
theorem bpc2_all_frames_from_frame0 (frames : ℕ) (allocOk : ℕ → Bool)
    (raws : ℕ → List ℕ) (hok : ∀ j, allocOk j = true) :
    (∀ f, f < frames →
      (initVolumeTexture frames 2 allocOk raws).uploaded f = some (rebit16 (raws 0))) ∧
    (∀ f, f < frames →
      (initVolumeTexture frames 1 allocOk raws).uploaded f = some (raws f)) := by
  constructor <;> intro f hf
  · obtain ⟨hm, hu⟩ := uploadFrames_allOk 2 allocOk raws hok frames 0
      ⟨fun _ => none, fun _ => none, true, none⟩
    unfold initVolumeTexture finalizeVolTex
    rw [hm]
    rw [hu f (by omega) (by omega)]
    rfl
  · obtain ⟨hm, hu⟩ := uploadFrames_allOk 1 allocOk raws hok frames 0
      ⟨fun _ => none, fun _ => none, true, none⟩
    unfold initVolumeTexture finalizeVolTex
    rw [hm]
    rw [hu f (by omega) (by omega)]
    rfl

theorem alloc_failure_rollback_witness :
    (1 < 3 ∧ (fun f => f == 0 || f == 2) 1 = false ∧
      (∀ j, j < 1 → (fun f => f == 0 || f == 2) j = true)) ∧
    ((initVolumeTexture 3 1 (fun f => f == 0 || f == 2) (fun _ => [7])).volumeCopyToGpuOk
        = false ∧
      (initVolumeTexture 3 1 (fun f => f == 0 || f == 2) (fun _ => [7])).outOfMemFrame
        = some 1 ∧
      (∀ f, f ≤ 1 →
        (initVolumeTexture 3 1 (fun f => f == 0 || f == 2) (fun _ => [7])).arrays f = none) ∧
      (∀ f, 1 ≤ f →
        (initVolumeTexture 3 1 (fun f => f == 0 || f == 2) (fun _ => [7])).uploaded f
          = none) ∧
      compositeVolume
        (initVolumeTexture 3 1 (fun f => f == 0 || f == 2) (fun _ => [7])).volumeCopyToGpuOk
        32 16 = none) :=
  ⟨⟨by decide, by decide, by decide⟩,
   alloc_failure_rollback 3 1 1 (fun f => f == 0 || f == 2) (fun _ => [7]) 32 16
     (by decide) (by decide) (by decide)⟩

theorem bpc2_all_frames_from_frame0_witness :
    (∀ j : ℕ, (fun _ => true) j = true) ∧
    ((∀ f, f < 2 →
      (initVolumeTexture 2 2 (fun _ => true) (fun f => [f, 16])).uploaded f
        = some (rebit16 [0, 16])) ∧
    (∀ f, f < 2 →
      (initVolumeTexture 2 1 (fun _ => true) (fun f => [f, 16])).uploaded f
        = some [f, 16])) :=
  ⟨fun _ => rfl,
   bpc2_all_frames_from_frame0 2 (fun _ => true) (fun f => [f, 16]) (fun _ => rfl)⟩

end VV
